import Mathlib

/-!
Verification development for the Seeed MicroPython mode of the Mu editor
(src/mu/modes/seeed.py).  The definitions below are a shallow embedding of
the firmware-update subsystem: the `download` helper (network fetch with a
temporary sibling file and bounded retries), the `Info` catalog loader, and
the `FirmwareUpdater` pipeline (`update` / `download_to_board`), with the
external effects (network, serial port, subprocess, UI signals) modelled by
explicit oracles and an event trace.
-/

namespace Seeed

/-! ## Calendar dates (Python `datetime` values compared lexicographically) -/

/-- A calendar date, standing for the Python `datetime` values produced by
`strptime(value, %Y-%m-%d)`.  Only the (year, month, day) triple matters. -/
structure Dt where
  y : Nat
  m : Nat
  d : Nat
deriving DecidableEq, Repr

/-- Strict comparison of dates, exactly the lexicographic order Python uses
on `datetime` objects: `dtLtb a b = true` iff `a < b`. -/
def dtLtb (a b : Dt) : Bool :=
  Nat.blt a.y b.y ||
    (a.y == b.y && (Nat.blt a.m b.m || (a.m == b.m && Nat.blt a.d b.d)))

/-- Leap-year test as in the Gregorian calendar (Python `datetime`). -/
def isLeap (yr : Nat) : Bool :=
  yr % 4 == 0 && (yr % 100 != 0 || yr % 400 == 0)

/-- Number of days of month `mo` of year `yr` (Python `datetime`). -/
def daysInMonth (yr mo : Nat) : Nat :=
  if mo == 2 then (if isLeap yr then 29 else 28)
  else if mo == 4 || mo == 6 || mo == 9 || mo == 11 then 30
  else 31

/-- Value of a list of decimal digit characters. -/
def digitsToNat (l : List Char) : Nat :=
  l.foldl (fun n c => n * 10 + (c.toNat - 48)) 0

/-- Split a character list at every dash, the way Python `%Y-%m-%d` parsing
separates the three date fields. -/
def splitDash : List Char → List (List Char)
  | [] => [[]]
  | c :: t =>
    if c = '-' then [] :: splitDash t
    else
      match splitDash t with
      | [] => [[c]]
      | h :: r => (c :: h) :: r

/-- Model of `strptime(value, %Y-%m-%d)` from seeed.py: four year digits,
one or two month digits (1..12), one or two day digits valid for the month,
the whole string consumed; any violation raises in Python, here `none`. -/
def strptimeChars (l : List Char) : Option Dt :=
  match splitDash l with
  | [ys, ms, ds] =>
    if ys.length = 4 ∧ ys.all Char.isDigit = true ∧
        (ms.length = 1 ∨ ms.length = 2) ∧ ms.all Char.isDigit = true ∧
        (ds.length = 1 ∨ ds.length = 2) ∧ ds.all Char.isDigit = true then
      let yr := digitsToNat ys
      let mo := digitsToNat ms
      let dy := digitsToNat ds
      if yr = 0 ∨ mo = 0 ∨ 12 < mo ∨ dy = 0 ∨ daysInMonth yr mo < dy then
        none
      else
        some ⟨yr, mo, dy⟩
    else none
  | _ => none

/-- Model of Python `strptime` on a string value. -/
def strptime (s : String) : Option Dt :=
  strptimeChars s.data

/-! ## The serial probe response parse (`FirmwareUpdater.update`, probe) -/

/-- Does the second list start with the first list? -/
def leadsWith : List Char → List Char → Bool
  | [], _ => true
  | _ :: _, [] => false
  | a :: s, b :: t => a == b && leadsWith s t

/-- Model of Python `str.index(sub)`: position of the first occurrence of
`sub`, or `none` where Python raises `ValueError`. -/
def findSub (sub : List Char) : List Char → Option Nat
  | [] => if leadsWith sub [] then some 0 else none
  | c :: t =>
    if leadsWith sub (c :: t) then some 0
    else (findSub sub t).map (fun n => n + 1)

/-- Model of a Python slice `s[a:b]` with int endpoints: negative indices
count from the end, endpoints are clamped to the string. -/
def sliceChars (cs : List Char) (a b : Int) : List Char :=
  let n : Int := cs.length
  let lo : Nat := (if a < 0 then max (n + a) 0 else min a n).toNat
  let hi : Nat := (if b < 0 then max (n + b) 0 else min b n).toNat
  (cs.take hi).drop lo

/-- The banner marker the probe looks for in the serial response. -/
def markerChars : List Char := ("; Ardupy with seeed").data

/-- The whole `try` block of the probe in `FirmwareUpdater.update`:
decode the response (`none` input models a decode failure), find the banner
marker, slice the ten characters before it (`tmp[r - 10:r]`), parse them as
a date.  Any failing step raises in Python, here `none`. -/
def parseProbe (resp : Option String) : Option Dt :=
  match resp with
  | none => none
  | some tmp =>
    match findSub markerChars tmp.data with
    | none => none
    | some r => strptimeChars (sliceChars tmp.data ((r : Int) - 10) (r : Int))

/-! ## The `download` helper (seeed.py lines 485-503)

The filesystem is a map from paths to optional content (a list of written
blocks); the network is an oracle giving each attempt an outcome: failure
before anything is written to the temporary file, failure midway with some
blocks already written, or full success.  Each attempt records the
`requests.get` call it issues, together with the timeout it passes to it. -/

/-- Filesystem state: content of each path, `none` when absent. -/
abbrev FS := String → Option (List Nat)

/-- Point update of the filesystem. -/
def fsSet (fs : FS) (p : String) (v : Option (List Nat)) : FS :=
  fun q => if q = p then v else fs q

/-- Outcome of one download attempt. -/
inductive Attempt where
  | failBefore : Attempt
  | failMid : List Nat → Attempt
  | success : List Nat → Attempt
deriving DecidableEq, Repr

/-- Whether the attempt is the successful one. -/
def Attempt.isSucc : Attempt → Bool
  | .success _ => true
  | _ => false

/-- One `requests.get` call as issued by `download`: the URL, and the
timeout actually handed to the request (the source passes none). -/
structure NetCall where
  url : String
  timeout : Option Nat
deriving DecidableEq, Repr

/-- The retry loop of `download`: at each iteration remove a leftover
temporary file, issue `requests.get(source_path)` (note: without the
timeout argument), stream blocks into `des_path + .tmp` and, only on full
success, `shutil.move` the temporary file onto `des_path` and stop. -/
def downloadLoop (des src : String) (att : Nat → Attempt) :
    Nat → Nat → FS → Bool × FS × List NetCall
  | _, 0, fs => (false, fs, [])
  | i, r + 1, fs =>
    let tmp := des ++ ".tmp"
    let fs1 := if (fs tmp).isSome then fsSet fs tmp none else fs
    match att i with
    | .failBefore =>
      let rest := downloadLoop des src att (i + 1) r fs1
      (rest.1, rest.2.1, ⟨src, none⟩ :: rest.2.2)
    | .failMid part =>
      let rest := downloadLoop des src att (i + 1) r (fsSet fs1 tmp (some part))
      (rest.1, rest.2.1, ⟨src, none⟩ :: rest.2.2)
    | .success content =>
      let fs2 := fsSet fs1 tmp (some content)
      (true, fsSet (fsSet fs2 des (some content)) tmp none, [⟨src, none⟩])

/-- `download(des_path, source_path, timeout, try_time)` from seeed.py.
The source defaults are `timeout = 5` and `try_time = 3`; the `timeout`
parameter is accepted but, as in the source, never forwarded to
`requests.get`.  Returns the Python return value, the final filesystem and
the list of requests issued. -/
def download (fs : FS) (des src : String) (att : Nat → Attempt)
    (timeout try_time : Nat) : Bool × FS × List NetCall :=
  downloadLoop des src att 0 try_time fs

/-! ## The catalog loader (`Info.__init__`, seeed.py lines 56-83) -/

/-- One entry of the bundled `info.json` descriptor: a board name and its
(vendor id, product id) pair. -/
structure BoardEntry where
  name : String
  pvid : Nat × Nat
deriving DecidableEq, Repr

/-- The bundled descriptor: boot-mode entries, normal-mode entries, and the
library list. -/
structure InfoJson where
  boot : List BoardEntry
  normal : List BoardEntry
  lib : List (String × String)
deriving DecidableEq, Repr

/-- The catalog state `Info.__init__` builds: the textual-pair to
config-file-name map, the two pvid lists, and the library dictionary. -/
structure InfoState where
  dic_config : List (String × String)
  board_boot : List (Nat × Nat)
  board_normal : List (Nat × Nat)
  lib_dic : List (String × String)
deriving DecidableEq, Repr

/-- Python `dict.setdefault`: keep the existing binding, else append. -/
def setdefault (d : List (String × String)) (k v : String) :
    List (String × String) :=
  if d.any (fun kv => kv.1 == k) then d else d ++ [(k, v)]

/-- Python `str((a, b))` on a pair of ints, the key form used by
`dic_config`. -/
def keyStr (p : Nat × Nat) : String :=
  "(" ++ toString p.1 ++ ", " ++ toString p.2 ++ ")"

/-- The config file name `config-%s.json % name`. -/
def cfgName (n : String) : String := "config-" ++ n ++ ".json"

/-- Processing of one `boot` entry in `Info.__init__`. -/
def stepBoot (st : InfoState) (b : BoardEntry) : InfoState :=
  { st with
    dic_config := setdefault st.dic_config (keyStr b.pvid) (cfgName b.name),
    board_boot := st.board_boot ++ [b.pvid] }

/-- Processing of one `normal` entry in `Info.__init__`. -/
def stepNormal (st : InfoState) (b : BoardEntry) : InfoState :=
  { st with
    dic_config := setdefault st.dic_config (keyStr b.pvid) (cfgName b.name),
    board_normal := st.board_normal ++ [b.pvid] }

/-- `Info.__init__` from seeed.py: clear the three containers, fold the
boot entries, then the normal entries, then build `lib_dic`.  Note that it
performs no validation whatsoever and never raises on a well-formed
descriptor. -/
def initInfo (inf : InfoJson) : InfoState :=
  let st1 := inf.boot.foldl stepBoot ⟨[], [], [], []⟩
  let st2 := inf.normal.foldl stepNormal st1
  { st2 with
    lib_dic := inf.lib.foldl
      (fun d l => if d.any (fun kv => kv.1 == l.1) then d else d ++ [l]) [] }

/-- Whether some (vendor id, product id) pair occurs more than once across
the boot and normal entry sets of a descriptor. -/
def hasDupPvid (inf : InfoJson) : Bool :=
  let all := (inf.boot ++ inf.normal).map (fun b => b.pvid)
  all.any (fun p => 2 ≤ all.count p)

/-- Modelled from the spec (section 4.1): a loader that fails with
`InvalidCatalog` when the same (vendorId, productId) pair occurs more than
once across the boot and normal sets, and otherwise produces the catalog.
Stated only for comparison with `initInfo`, the loader of the source. -/
def loadCatalogSpec (inf : InfoJson) : Except String InfoState :=
  if hasDupPvid inf then Except.error "InvalidCatalog"
  else Except.ok (initInfo inf)

/-! ## The firmware updater (`FirmwareUpdater`, seeed.py lines 506-763)

The mutable fields of the updater and of the shared `Info` object that the
pipeline reads and writes are gathered in `USt`; every external effect is
an oracle field of the environment, and every outward signal or side
effect is an event in the returned trace. -/

/-- Mutable state threaded through the pipeline: `need_confirm` and
`in_bootload_mode` on the updater, `has_firmware` on the `Info` object,
and the `has_firmware` attribute line 681 creates on the updater itself. -/
structure USt where
  need_confirm : Bool
  in_bootload_mode : Bool
  info_has_firmware : Bool
  upd_has_firmware : Bool
deriving DecidableEq, Repr

/-- Initial field values of `FirmwareUpdater` and `Info`. -/
def initUSt : USt :=
  { need_confirm := true, in_bootload_mode := false,
    info_has_firmware := false, upd_has_firmware := false }

/-- Observable events of the pipeline: emitted Qt signals, the serial port
open and close, the `stty` baud-rate call, and the flashing subprocess. -/
inductive Ev where
  | status : String → Ev
  | statusShort : String → Ev
  | confirmPrompt : String → Ev
  | setAllButton : Bool → Ev
  | stty : Nat → Ev
  | flashTool : Ev
  | messageBox : String → Ev
  | comOpen : Ev
  | comClose : Ev
deriving DecidableEq, Repr

/-- Oracle inputs of `download_to_board`: the answer of the confirmation
dialog and the exit status of the flashing tool (true for exit code 0). -/
structure DtbEnv where
  confirm_answer : Bool
  flash_ok : Bool
deriving DecidableEq, Repr

/-- The confirmation hints of `download_to_board`. -/
def hint_new_firmware : String :=
  "there is a new available firmware, would you like to update it to you board ?"

/-- The hint shown when the board is detected in bootloader mode. -/
def hint_bootload : String :=
  "your board on bootload download mode, would you like to flashing a firmware ?"

/-- The hint shown when no firmware was found on the board. -/
def hint_no_firmware : String :=
  "there is no firmware in your board, would you like to flashing a firmware ?"

/-- The status text shown while flashing. -/
def hint_flashing : String := "Flashing..."

/-- The status text shown when flashing succeeded. -/
def hint_flashing_success : String := "Flashing success."

/-- The status text shown when flashing failed. -/
def hint_flashing_fail : String := "Flashing fail."

/-- The success dialog text, `%d.%d.%d`-formatted from the new version. -/
def successMsg (v : Dt) : String :=
  "your board update to version " ++ toString v.y ++ "." ++ toString v.m ++
    "." ++ toString v.d ++ " sucessfully!"

/-- Which hint `download_to_board` picks for the confirmation dialog. -/
def hintOf (s : USt) (has_seeed_firmware : Bool) : String :=
  if has_seeed_firmware then hint_new_firmware
  else if s.in_bootload_mode then hint_bootload
  else hint_no_firmware

/-- The part of `download_to_board` after the confirmation block: emit
`set_all_button(False)`; in normal mode run `stty` at baud 1200, clear
`need_confirm` and return; in bootloader mode run the flashing tool and
report its outcome. -/
def dtbTail (s : USt) (env : DtbEnv) (nv : Dt) : USt × List Ev :=
  if s.in_bootload_mode then
    if env.flash_ok then
      ({ s with upd_has_firmware := true },
        [Ev.setAllButton false, Ev.status hint_flashing, Ev.flashTool,
          Ev.messageBox (successMsg nv), Ev.statusShort hint_flashing_success,
          Ev.setAllButton true])
    else
      (s,
        [Ev.setAllButton false, Ev.status hint_flashing, Ev.flashTool,
          Ev.statusShort hint_flashing_fail, Ev.statusShort "flashing fail.",
          Ev.setAllButton true])
  else
    ({ s with need_confirm := false }, [Ev.setAllButton false, Ev.stty 1200])

/-- `FirmwareUpdater.download_to_board` (seeed.py lines 641-685).  The
source defaults are `need_update = True` and `has_seeed_firmware = False`;
`need_update` is accepted and never used, as in the source. -/
def download_to_board (s : USt) (env : DtbEnv) (nv : Dt)
    (need_update has_seeed_firmware : Bool) : USt × List Ev :=
  if s.need_confirm then
    if env.confirm_answer then
      let r := dtbTail s env nv
      (r.1, Ev.confirmPrompt (hintOf s has_seeed_firmware) :: r.2)
    else
      (s, [Ev.confirmPrompt (hintOf s has_seeed_firmware)])
  else if s.in_bootload_mode then
    dtbTail { s with need_confirm := true } env nv
  else
    (s, [Ev.setAllButton true])

/-- Oracle inputs of one `update` run: the metadata phase (cached config
presence and version, config download outcome and downloaded version,
local firmware cache, firmware download outcome), the three serial open
attempts of the probe loop and the decoded probe response, and the
`download_to_board` oracles. -/
structure UEnv where
  config_exists : Bool
  cached_version : Dt
  config_download_ok : Bool
  downloaded_version : Dt
  local_firmware_exists : Bool
  firmware_download_ok : Bool
  probe_open1 : Bool
  probe_open2 : Bool
  probe_open3 : Bool
  probe_response : Option String
  confirm_answer : Bool
  flash_ok : Bool
deriving DecidableEq, Repr

/-- The `download_to_board` oracles of an `update` environment. -/
def dtbEnvOf (e : UEnv) : DtbEnv :=
  { confirm_answer := e.confirm_answer, flash_ok := e.flash_ok }

/-- The `new_version` value the metadata phase of `update` computes: with
`need_confirm` set, the downloaded version on download success, else the
cached version (or 2000-01-01 when no cached config exists); without
`need_confirm`, the version of the config file on disk. -/
def newVersionOf (s : USt) (e : UEnv) : Dt :=
  if s.need_confirm then
    if e.config_download_ok then e.downloaded_version
    else if e.config_exists then e.cached_version else ⟨2000, 1, 1⟩
  else e.cached_version

/-- The `for i in range(3)` probe loop of `update`: on a failed open wait
and retry; on the first successful open write the interrupt and raw-mode
bytes, read the response, parse it (`parseProbe`), close the port, then
either stop (latest firmware already on the board) or hand over to
`download_to_board`.  A parse failure sets `has_seeed_firmware` to false
and leaves `need_update` at its initial true. -/
def probeLoop (s : USt) (e : UEnv) (nv : Dt) : List Bool → USt × List Ev
  | [] => (s, [])
  | o :: rest =>
    if o then
      match parseProbe e.probe_response with
      | some v =>
        if dtLtb v nv then
          let r := download_to_board { s with info_has_firmware := true }
            (dtbEnvOf e) nv true true
          (r.1, Ev.comOpen :: Ev.comClose :: r.2)
        else
          ({ s with info_has_firmware := true }, [Ev.comOpen, Ev.comClose])
      | none =>
        let r := download_to_board s (dtbEnvOf e) nv true false
        (r.1, Ev.comOpen :: Ev.comClose :: r.2)
    else
      probeLoop s e nv rest

/-- `FirmwareUpdater.update` (seeed.py lines 687-763): compute
`new_version` from the metadata phase, then either go straight to
`download_to_board` (board already in bootloader mode) or run the probe
loop. -/
def update (s : USt) (e : UEnv) : USt × List Ev :=
  if s.in_bootload_mode then
    download_to_board s (dtbEnvOf e) (newVersionOf s e) true false
  else
    probeLoop s e (newVersionOf s e)
      [e.probe_open1, e.probe_open2, e.probe_open3]

/-- `__asyc_detect_new_device_handle` as it affects the updater state:
reset `info.has_firmware`, record whether the matched pvid is a boot-mode
or a normal-mode one. -/
def detectDevice (s : USt) (boot_mode : Bool) : USt :=
  { s with in_bootload_mode := boot_mode, info_has_firmware := false }

/-! ## Event classifiers used by the claims -/

/-- Events the orchestrator claims are gated: a confirmation request, the
baud-rate mode switch, the flashing tool invocation. -/
def isUpdateAction : Ev → Bool
  | .confirmPrompt _ => true
  | .stty _ => true
  | .flashTool => true
  | _ => false

/-- Whether the event is a confirmation request. -/
def isConfirmEv : Ev → Bool
  | .confirmPrompt _ => true
  | _ => false

/-- Number of flashing-tool invocations in a trace. -/
def countFlash (evs : List Ev) : Nat :=
  evs.countP (fun ev => match ev with | Ev.flashTool => true | _ => false)

/-- Scan of a trace tracking how many serial ports are open: `comOpen`
increments, `comClose` decrements, and every gated action (confirmation
request, mode switch, flash) must happen with no port open; at the end of
the trace no port may remain open. -/
def portScan : Nat → List Ev → Bool
  | n, [] => n == 0
  | n, Ev.comOpen :: rest => portScan (n + 1) rest
  | n, Ev.comClose :: rest => portScan (n - 1) rest
  | n, ev :: rest => (!(isUpdateAction ev) || n == 0) && portScan n rest

/-! ## Concrete objects used by counterexamples and witnesses -/

/-- A small filesystem with some pre-existing content at path `d`. -/
def dFs : FS := fun p => if p = "d" then some [7] else none

/-- An attempt oracle where every attempt fails midway. -/
def dAttFail : Nat → Attempt := fun _ => Attempt.failMid [1]

/-- An attempt oracle failing once, then succeeding. -/
def dAttSucc : Nat → Attempt :=
  fun i => if i = 1 then Attempt.success [2] else Attempt.failBefore

/-- A descriptor whose boot and normal sets share one pvid pair. -/
def dupDescriptor : InfoJson :=
  { boot := [⟨"A", (10374, 69)⟩], normal := [⟨"B", (10374, 69)⟩], lib := [] }

/-- A state in bootloader mode awaiting confirmation. -/
def cexBootState : USt :=
  { need_confirm := true, in_bootload_mode := true,
    info_has_firmware := false, upd_has_firmware := false }

/-- Oracles accepting the confirmation with a failing flash tool. -/
def cexDtbEnv : DtbEnv := { confirm_answer := true, flash_ok := false }

/-- An environment whose probe reads back the same version the metadata
reports: fresh metadata 2021-06-01, on-device banner date 2021-06-01. -/
def c5Env : UEnv :=
  { config_exists := true, cached_version := ⟨2020, 1, 1⟩,
    config_download_ok := true, downloaded_version := ⟨2021, 6, 1⟩,
    local_firmware_exists := true, firmware_download_ok := true,
    probe_open1 := true, probe_open2 := false, probe_open3 := false,
    probe_response := some "2021-06-01; Ardupy with seeed",
    confirm_answer := true, flash_ok := true }

/-- An environment whose probe response lacks the banner marker; the first
open attempt fails and the second succeeds. -/
def c6Env : UEnv :=
  { config_exists := false, cached_version := ⟨2000, 1, 1⟩,
    config_download_ok := false, downloaded_version := ⟨2000, 1, 1⟩,
    local_firmware_exists := false, firmware_download_ok := false,
    probe_open1 := false, probe_open2 := true, probe_open3 := false,
    probe_response := some "no marker here",
    confirm_answer := false, flash_ok := false }

/-- First-run environment of the two-run scenario: cached version
2020-01-01, remote metadata 2021-06-01, on-device banner date 2020-01-01,
confirmation accepted. -/
def c9Env1 : UEnv :=
  { config_exists := true, cached_version := ⟨2020, 1, 1⟩,
    config_download_ok := true, downloaded_version := ⟨2021, 6, 1⟩,
    local_firmware_exists := false, firmware_download_ok := true,
    probe_open1 := true, probe_open2 := false, probe_open3 := false,
    probe_response := some "2020-01-01; Ardupy with seeed",
    confirm_answer := true, flash_ok := true }

/-- Second-run environment of the two-run scenario, after the board
re-enumerated in bootloader mode. -/
def c9Env2 : UEnv :=
  { config_exists := true, cached_version := ⟨2021, 6, 1⟩,
    config_download_ok := true, downloaded_version := ⟨2021, 6, 1⟩,
    local_firmware_exists := true, firmware_download_ok := true,
    probe_open1 := true, probe_open2 := false, probe_open3 := false,
    probe_response := none,
    confirm_answer := true, flash_ok := true }

/-! ## Lemmas about the filesystem and the download loop -/

theorem fsSet_ne (fs : FS) (p q : String) (v : Option (List Nat)) (h : q ≠ p) :
    fsSet fs p v q = fs q := by simp [fsSet, h]

theorem fs1_ne (fs : FS) (tmp p : String) (h : p ≠ tmp) :
    (if (fs tmp).isSome then fsSet fs tmp none else fs) p = fs p := by
  split <;> simp [fsSet, h]

theorem fs1_tmp (fs : FS) (tmp : String) :
    (if (fs tmp).isSome then fsSet fs tmp none else fs) tmp = none := by
  split <;> simp_all [fsSet, Option.isSome_iff_exists]
  exact Option.eq_none_iff_forall_not_mem.mpr (by assumption)

theorem tmp_ne (des : String) : des ++ ".tmp" ≠ des := by
  intro h
  have h2 := congrArg String.length h
  simp [String.length_append] at h2
  have : (".tmp" : String).length = 4 := by decide
  omega

theorem downloadLoop_other (des src : String) (att : Nat → Attempt) :
    ∀ (r i : Nat) (fs : FS) (p : String), p ≠ des → p ≠ des ++ ".tmp" →
      (downloadLoop des src att i r fs).2.1 p = fs p := by
  intro r
  induction r with
  | zero => intro i fs p _ _; rfl
  | succ r ih =>
    intro i fs p hpd hpt
    rw [downloadLoop]
    cases h : att i with
    | failBefore =>
      rw [ih (i + 1) _ p hpd hpt, fs1_ne fs _ p hpt]
    | failMid part =>
      rw [ih (i + 1) _ p hpd hpt, fsSet_ne _ _ _ _ hpt, fs1_ne fs _ p hpt]
    | success content =>
      simp only [fsSet]
      rw [if_neg hpt, if_neg hpd, if_neg hpt, fs1_ne fs _ p hpt]

theorem downloadLoop_fail_des (des src : String) (att : Nat → Attempt) :
    ∀ (r i : Nat) (fs : FS),
      (downloadLoop des src att i r fs).1 = false →
      (downloadLoop des src att i r fs).2.1 des = fs des := by
  intro r
  induction r with
  | zero => intro i fs _; rfl
  | succ r ih =>
    intro i fs hf
    rw [downloadLoop] at hf ⊢
    cases h : att i with
    | failBefore =>
      rw [h] at hf
      rw [ih (i + 1) _ hf, fs1_ne fs _ des (Ne.symm (tmp_ne des))]
    | failMid part =>
      rw [h] at hf
      rw [ih (i + 1) _ hf, fsSet_ne _ _ _ _ (Ne.symm (tmp_ne des)),
        fs1_ne fs _ des (Ne.symm (tmp_ne des))]
    | success content =>
      rw [h] at hf
      simp at hf

theorem downloadLoop_all_fail (des src : String) (att : Nat → Attempt) :
    ∀ (r i : Nat) (fs : FS),
      (∀ j, j < r → (att (i + j)).isSucc = false) →
      (downloadLoop des src att i r fs).1 = false ∧
      (downloadLoop des src att i r fs).2.2.length = r := by
  intro r
  induction r with
  | zero => intro i fs _; exact ⟨rfl, rfl⟩
  | succ r ih =>
    intro i fs hall
    have h0 : (att i).isSucc = false := by
      have := hall 0 (by omega); rwa [Nat.add_zero] at this
    have hrest : ∀ j, j < r → (att (i + 1 + j)).isSucc = false := by
      intro j hj
      have := hall (j + 1) (by omega)
      rwa [show i + (j + 1) = i + 1 + j by omega] at this
    rw [downloadLoop]
    cases h : att i with
    | failBefore =>
      have := ih (i + 1)
        (if (fs (des ++ ".tmp")).isSome then fsSet fs (des ++ ".tmp") none else fs) hrest
      simpa using this
    | failMid part =>
      have := ih (i + 1)
        (fsSet (if (fs (des ++ ".tmp")).isSome then fsSet fs (des ++ ".tmp") none else fs)
          (des ++ ".tmp") (some part)) hrest
      simpa using this
    | success content =>
      rw [h] at h0; simp [Attempt.isSucc] at h0

theorem downloadLoop_first_succ (des src : String) (att : Nat → Attempt) :
    ∀ (r k i : Nat) (fs : FS),
      k < r → (att (i + k)).isSucc = true →
      (∀ j, j < k → (att (i + j)).isSucc = false) →
      (downloadLoop des src att i r fs).1 = true ∧
      (downloadLoop des src att i r fs).2.2.length = k + 1 := by
  intro r
  induction r with
  | zero => intro k i fs hk; omega
  | succ r ih =>
    intro k i fs hk hsucc hbefore
    rw [downloadLoop]
    cases hcase : k with
    | zero =>
      subst hcase
      rw [Nat.add_zero] at hsucc
      cases h : att i with
      | failBefore => rw [h] at hsucc; simp [Attempt.isSucc] at hsucc
      | failMid part => rw [h] at hsucc; simp [Attempt.isSucc] at hsucc
      | success content => exact ⟨rfl, rfl⟩
    | succ k' =>
      subst hcase
      have h0 : (att i).isSucc = false := by
        have := hbefore 0 (by omega); rwa [Nat.add_zero] at this
      have hsucc2 : (att (i + 1 + k')).isSucc = true := by
        rwa [show i + 1 + k' = i + (k' + 1) by omega]
      have hbefore2 : ∀ j, j < k' → (att (i + 1 + j)).isSucc = false := by
        intro j hj
        have := hbefore (j + 1) (by omega)
        rwa [show i + (j + 1) = i + 1 + j by omega] at this
      cases h : att i with
      | failBefore =>
        have := ih k' (i + 1)
          (if (fs (des ++ ".tmp")).isSome then fsSet fs (des ++ ".tmp") none else fs)
          (by omega) hsucc2 hbefore2
        simpa using this
      | failMid part =>
        have := ih k' (i + 1)
          (fsSet (if (fs (des ++ ".tmp")).isSome then fsSet fs (des ++ ".tmp") none else fs)
            (des ++ ".tmp") (some part))
          (by omega) hsucc2 hbefore2
        simpa using this
      | success content =>
        rw [h] at h0; simp [Attempt.isSucc] at h0

theorem downloadLoop_tmp_last (des src : String) (att : Nat → Attempt) :
    ∀ (r i : Nat) (fs : FS),
      (∀ j, j < r + 1 → (att (i + j)).isSucc = false) →
      (downloadLoop des src att i (r + 1) fs).2.1 (des ++ ".tmp") =
        (match att (i + r) with
          | Attempt.failMid part => some part
          | _ => none) := by
  intro r
  induction r with
  | zero =>
    intro i fs hall
    have h0 : (att i).isSucc = false := by
      have := hall 0 (by omega); rwa [Nat.add_zero] at this
    simp only [Nat.add_zero]
    rw [downloadLoop]
    cases h : att i with
    | failBefore =>
      simp only [h, downloadLoop]
      exact fs1_tmp fs _
    | failMid part => simp only [h, downloadLoop]; simp [fsSet]
    | success content =>
      rw [h] at h0; simp [Attempt.isSucc] at h0
  | succ r ih =>
    intro i fs hall
    have h0 : (att i).isSucc = false := by
      have := hall 0 (by omega); rwa [Nat.add_zero] at this
    have hrest : ∀ j, j < r + 1 → (att (i + 1 + j)).isSucc = false := by
      intro j hj
      have := hall (j + 1) (by omega)
      rwa [show i + (j + 1) = i + 1 + j by omega] at this
    rw [show i + (r + 1) = i + 1 + r by omega, downloadLoop]
    cases h : att i with
    | failBefore =>
      have := ih (i + 1)
        (if (fs (des ++ ".tmp")).isSome then fsSet fs (des ++ ".tmp") none else fs) hrest
      simpa using this
    | failMid part =>
      have := ih (i + 1)
        (fsSet (if (fs (des ++ ".tmp")).isSome then fsSet fs (des ++ ".tmp") none else fs)
          (des ++ ".tmp") (some part)) hrest
      simpa using this
    | success content =>
      rw [h] at h0; simp [Attempt.isSucc] at h0

theorem downloadLoop_timeout_none (des src : String) (att : Nat → Attempt) :
    ∀ (r i : Nat) (fs : FS),
      ((downloadLoop des src att i r fs).2.2).all
        (fun c => c.timeout.isNone && (c.url == src)) = true := by
  intro r
  induction r with
  | zero => intro i fs; rfl
  | succ r ih =>
    intro i fs
    rw [downloadLoop]
    cases h : att i with
    | failBefore => simpa using ih (i + 1) _
    | failMid part => simpa using ih (i + 1) _
    | success content => simp

/-! ## Claim theorems -/

/-- Claim C1: a fetch replaces the destination path only after a fully
successful transfer.  After a run in which every attempt failed or was
interrupted, the destination path holds exactly its pre-call content
(whether present or absent), and every path other than the destination and
its temporary sibling `des ++ ".tmp"` is untouched, so partial data is
written only to the temporary sibling. -/
theorem download_atomic_on_failure (fs : FS) (des src : String)
    (att : Nat → Attempt) (timeout try_time : Nat) :
    ((download fs des src att timeout try_time).1 = false →
      (download fs des src att timeout try_time).2.1 des = fs des) ∧
    (∀ p : String, p ≠ des → p ≠ des ++ ".tmp" →
      (download fs des src att timeout try_time).2.1 p = fs p) :=
  ⟨fun hf => downloadLoop_fail_des des src att try_time 0 fs hf,
    fun p hpd hpt => downloadLoop_other des src att try_time 0 fs p hpd hpt⟩

theorem download_atomic_on_failure_witness :
    (download dFs "d" "u" dAttFail 5 3).2.1 "d" = dFs "d" ∧
    (download dFs "d" "u" dAttFail 5 3).2.1 "x" = dFs "x" :=
  ⟨(download_atomic_on_failure dFs "d" "u" dAttFail 5 3).1 rfl,
    (download_atomic_on_failure dFs "d" "u" dAttFail 5 3).2 "x"
      (by decide) (by decide)⟩

/-- Claim C2: on persistent transport failure `download` makes exactly
`try_time` attempts (one `requests.get` per attempt) and returns the
failure result; the partial temporary file of an earlier attempt is
discarded, so after the run the temporary sibling holds at most what the
last attempt wrote; and the loop stops immediately after the first
successful attempt, having made exactly `k + 1` attempts when attempt `k`
is the first success. -/
theorem download_attempt_count (fs : FS) (des src : String)
    (att : Nat → Attempt) (timeout try_time : Nat) :
    ((∀ i, i < try_time → (att i).isSucc = false) →
      (download fs des src att timeout try_time).1 = false ∧
      (download fs des src att timeout try_time).2.2.length = try_time ∧
      (∀ r, try_time = r + 1 →
        (download fs des src att timeout try_time).2.1 (des ++ ".tmp") =
          (match att r with
            | Attempt.failMid part => some part
            | _ => none))) ∧
    (∀ k, k < try_time → (att k).isSucc = true →
      (∀ i, i < k → (att i).isSucc = false) →
      (download fs des src att timeout try_time).1 = true ∧
      (download fs des src att timeout try_time).2.2.length = k + 1) := by
  constructor
  · intro hall
    have h1 := downloadLoop_all_fail des src att try_time 0 fs
      (fun j hj => by simpa using hall j hj)
    refine ⟨h1.1, h1.2, ?_⟩
    intro r hr
    subst hr
    have h2 := downloadLoop_tmp_last des src att r 0 fs
      (fun j hj => by simpa using hall j hj)
    simpa using h2
  · intro k hk hsucc hbefore
    exact downloadLoop_first_succ des src att try_time k 0 fs hk
      (by simpa using hsucc) (fun j hj => by simpa using hbefore j hj)

theorem download_attempt_count_witness :
    ((download dFs "d" "u" dAttFail 5 3).1 = false ∧
      (download dFs "d" "u" dAttFail 5 3).2.2.length = 3 ∧
      (download dFs "d" "u" dAttFail 5 3).2.1 "d.tmp" = some [1]) ∧
    ((download dFs "d" "u" dAttSucc 5 3).1 = true ∧
      (download dFs "d" "u" dAttSucc 5 3).2.2.length = 2) := by
  constructor
  · have h := (download_attempt_count dFs "d" "u" dAttFail 5 3).1 (by decide)
    exact ⟨h.1, h.2.1, by simpa using h.2.2 2 rfl⟩
  · exact (download_attempt_count dFs "d" "u" dAttSucc 5 3).2 1 (by decide)
      (by decide) (by decide)

/-- Claim C3 (code bug): the `timeout` argument `download` accepts is never
applied to the network request: every `requests.get` call it issues is made
with no timeout at all, whatever timeout the caller passed, so an attempt
is not bounded by the per-attempt timeout. -/
theorem download_ignores_timeout (fs : FS) (des src : String)
    (att : Nat → Attempt) (timeout try_time : Nat) :
    ((download fs des src att timeout try_time).2.2).all
      (fun c => c.timeout.isNone && (c.url == src)) = true :=
  downloadLoop_timeout_none des src att try_time 0 fs

theorem foldl_stepBoot (l : List BoardEntry) :
    ∀ st : InfoState,
      (l.foldl stepBoot st).board_boot = st.board_boot ++ l.map (fun b => b.pvid) ∧
      (l.foldl stepBoot st).board_normal = st.board_normal := by
  induction l with
  | nil => intro st; simp
  | cons b t ih =>
    intro st
    have h := ih (stepBoot st b)
    simp only [List.foldl_cons, List.map_cons] at h ⊢
    rw [h.1, h.2]
    simp [stepBoot]

theorem foldl_stepNormal (l : List BoardEntry) :
    ∀ st : InfoState,
      (l.foldl stepNormal st).board_normal = st.board_normal ++ l.map (fun b => b.pvid) ∧
      (l.foldl stepNormal st).board_boot = st.board_boot := by
  induction l with
  | nil => intro st; simp
  | cons b t ih =>
    intro st
    have h := ih (stepNormal st b)
    simp only [List.foldl_cons, List.map_cons] at h ⊢
    rw [h.1, h.2]
    simp [stepNormal]

/-- Claim C4, counterexample: a descriptor whose boot set and normal set
share the pair (10374, 69) does not fail at load time.  `Info.__init__`
accepts it and produces a catalog (shown in full), while the loader the
spec describes would reject it with `InvalidCatalog`. -/
theorem catalog_dup_accepted_cex :
    hasDupPvid dupDescriptor = true ∧
    loadCatalogSpec dupDescriptor = Except.error "InvalidCatalog" ∧
    initInfo dupDescriptor =
      { dic_config := [("(10374, 69)", "config-A.json")],
        board_boot := [(10374, 69)], board_normal := [(10374, 69)],
        lib_dic := [] } :=
  ⟨by decide, rfl, by decide⟩

/-- Claim C4 as amended: loading the bundled descriptor never fails on a
duplicated (vendorId, productId) pair.  Every boot entry lands in the
boot list and every normal entry in the normal list, duplicates included,
with no validation performed (the metadata-filename map simply keeps the
first binding for a pair, by `setdefault`). -/
theorem catalog_dup_appended (inf : InfoJson) :
    (initInfo inf).board_boot = inf.boot.map (fun b => b.pvid) ∧
    (initInfo inf).board_normal = inf.normal.map (fun b => b.pvid) := by
  have h1 := foldl_stepBoot inf.boot (⟨[], [], [], []⟩ : InfoState)
  have h2 := foldl_stepNormal inf.normal (inf.boot.foldl stepBoot ⟨[], [], [], []⟩)
  constructor
  · simp only [initInfo]
    rw [h2.2, h1.1]
    simp
  · simp only [initInfo]
    rw [h2.1, h1.2]
    simp

/-- Claim C5: when the probe of a device in normal mode reads back a
version that is equal to or newer than the metadata version (the parsed
banner date `v` is not older than `newVersionOf`), the session
short-circuits: the trace of the whole `update` run contains no
confirmation request, no baud-rate mode switch and no flashing-tool
invocation. -/
theorem no_update_short_circuit (s : USt) (e : UEnv) (v : Dt)
    (hb : s.in_bootload_mode = false)
    (hp : parseProbe e.probe_response = some v)
    (hv : dtLtb v (newVersionOf s e) = false) :
    (update s e).2.filter isUpdateAction = [] := by
  cases h1 : e.probe_open1 <;> cases h2 : e.probe_open2 <;> cases h3 : e.probe_open3 <;>
    simp [update, hb, probeLoop, h1, h2, h3, hp, hv, isUpdateAction]

theorem no_update_short_circuit_witness :
    (update initUSt c5Env).2.filter isUpdateAction = [] :=
  no_update_short_circuit initUSt c5Env ⟨2021, 6, 1⟩ rfl (by decide) (by decide)

/-- Claim C6: whenever the serial probe cannot obtain a well-formed
version (`parseProbe` gives none: no decodable response, banner marker
absent, or the ten characters before the marker are not a valid
YYYY-MM-DD date) and some open attempt succeeds, the run does not abort:
it continues into the needs-flashing path and issues the no-firmware
confirmation prompt. -/
theorem probe_failure_recoverable (s : USt) (e : UEnv)
    (hb : s.in_bootload_mode = false) (hc : s.need_confirm = true)
    (hp : parseProbe e.probe_response = none)
    (ho : (e.probe_open1 || e.probe_open2 || e.probe_open3) = true) :
    Ev.confirmPrompt hint_no_firmware ∈ (update s e).2 := by
  cases h1 : e.probe_open1 <;> cases h2 : e.probe_open2 <;> cases h3 : e.probe_open3 <;>
    cases h4 : e.confirm_answer <;>
      simp_all [update, probeLoop, download_to_board, dtbTail, dtbEnvOf, hintOf,
        isUpdateAction]

theorem probe_failure_recoverable_witness :
    Ev.confirmPrompt hint_no_firmware ∈ (update initUSt c6Env).2 :=
  probe_failure_recoverable initUSt c6Env rfl rfl (by decide) (by decide)

theorem portScan_dtb (s : USt) (env : DtbEnv) (nv : Dt) (nu hsf : Bool) :
    portScan 0 (download_to_board s env nv nu hsf).2 = true := by
  cases h1 : s.need_confirm <;> cases h2 : env.confirm_answer <;>
    cases h3 : s.in_bootload_mode <;> cases h4 : env.flash_ok <;>
      simp [download_to_board, dtbTail, portScan, isUpdateAction, h1, h2, h3, h4]

theorem portScan_probeLoop (s : USt) (e : UEnv) (nv : Dt) :
    ∀ opens : List Bool, portScan 0 (probeLoop s e nv opens).2 = true := by
  intro opens
  induction opens with
  | nil => rfl
  | cons o rest ih =>
    cases o
    · simpa [probeLoop] using ih
    · rw [probeLoop, if_pos rfl]
      cases hp : parseProbe e.probe_response with
      | none =>
        simp only [hp, portScan]
        exact portScan_dtb _ _ _ _ _
      | some v =>
        cases hv : dtLtb v nv
        · simp only [hp, hv, Bool.false_eq_true, ite_false, portScan]
          rfl
        · simp only [hp, hv, ite_true, portScan]
          exact portScan_dtb _ _ _ _ _

/-- Claim C7: in every `update` run — successful version read, no open,
marker not found, malformed date, bootloader-mode run — the serial
transport is closed before control moves on: the trace never reaches a
confirmation request, a mode switch or a flash with a port still open,
and no port remains open at the end of the run. -/
theorem com_closed_before_actions (s : USt) (e : UEnv) :
    portScan 0 (update s e).2 = true := by
  cases hb : s.in_bootload_mode <;> simp only [update, hb]
  · simpa using portScan_probeLoop s e (newVersionOf s e)
      [e.probe_open1, e.probe_open2, e.probe_open3]
  · simpa using portScan_dtb s (dtbEnvOf e) (newVersionOf s e) true false

/-- Claim C8, counterexample: in bootloader mode with the confirmation
accepted and a flashing tool that exits non-zero, the flash step is run
exactly once and the failure is reported at once — there is no retry even
though a 3-attempt bound would leave attempts remaining. -/
theorem flash_no_retry_cex :
    countFlash (download_to_board cexBootState cexDtbEnv ⟨2021, 6, 1⟩ true false).2 = 1 ∧
    Ev.statusShort hint_flashing_fail ∈
      (download_to_board cexBootState cexDtbEnv ⟨2021, 6, 1⟩ true false).2 := by
  constructor
  · decide
  · decide

/-- Claim C8 as amended: the flash step is attempted exactly once per
`download_to_board` run; a zero exit status reports success naming the
newly flashed version, and a non-zero exit status reports failure
immediately, with no retry. -/
theorem flash_single_attempt (s : USt) (env : DtbEnv) (nv : Dt) (nu hsf : Bool)
    (h1 : s.need_confirm = true) (h2 : env.confirm_answer = true)
    (h3 : s.in_bootload_mode = true) :
    countFlash (download_to_board s env nv nu hsf).2 = 1 ∧
    (env.flash_ok = true →
      Ev.messageBox (successMsg nv) ∈ (download_to_board s env nv nu hsf).2 ∧
      Ev.statusShort hint_flashing_success ∈ (download_to_board s env nv nu hsf).2) ∧
    (env.flash_ok = false →
      Ev.statusShort hint_flashing_fail ∈ (download_to_board s env nv nu hsf).2) := by
  cases h4 : env.flash_ok <;>
    simp [download_to_board, dtbTail, countFlash, h1, h2, h3, h4]

theorem flash_single_attempt_witness :
    countFlash (download_to_board cexBootState ⟨true, true⟩ ⟨2021, 6, 1⟩ true false).2 = 1 ∧
    Ev.messageBox (successMsg ⟨2021, 6, 1⟩) ∈
      (download_to_board cexBootState ⟨true, true⟩ ⟨2021, 6, 1⟩ true false).2 := by
  have h := flash_single_attempt cexBootState ⟨true, true⟩ ⟨2021, 6, 1⟩ true false rfl rfl rfl
  exact ⟨h.1, (h.2.1 rfl).1⟩

/-- Claim C9: with an on-device version older than the metadata version,
the first run prompts with the new-firmware hint; acceptance triggers the
baud-1200 mode switch and clears `need_confirm`; and the second run — a
fresh detection of the board in bootloader mode — issues no confirmation
request at all and proceeds to the flashing tool, because the cleared
`need_confirm` flag carries the earlier consent across the runs. -/
theorem consent_remembered_across_runs (s0 : USt) (e1 e2 : UEnv) (v : Dt)
    (h0c : s0.need_confirm = true) (h0b : s0.in_bootload_mode = false)
    (hp : parseProbe e1.probe_response = some v)
    (hv : dtLtb v (newVersionOf s0 e1) = true)
    (ho : e1.probe_open1 = true)
    (hca : e1.confirm_answer = true) :
    Ev.confirmPrompt hint_new_firmware ∈ (update s0 e1).2 ∧
    Ev.stty 1200 ∈ (update s0 e1).2 ∧
    (update s0 e1).1.need_confirm = false ∧
    (update (detectDevice (update s0 e1).1 true) e2).2.filter isConfirmEv = [] ∧
    Ev.flashTool ∈ (update (detectDevice (update s0 e1).1 true) e2).2 := by
  have hrun1 : update s0 e1 =
      ({ s0 with info_has_firmware := true, need_confirm := false },
        [Ev.comOpen, Ev.comClose, Ev.confirmPrompt hint_new_firmware,
          Ev.setAllButton false, Ev.stty 1200]) := by
    simp [update, h0b, probeLoop, ho, hp, hv, download_to_board, h0c, hca,
      dtbEnvOf, dtbTail, hintOf]
  rw [hrun1]
  refine ⟨by simp, by simp, rfl, ?_, ?_⟩ <;>
    cases hf : e2.flash_ok <;>
      simp [update, detectDevice, download_to_board, dtbTail, dtbEnvOf,
        isConfirmEv, hf]

theorem consent_remembered_across_runs_witness :
    Ev.confirmPrompt hint_new_firmware ∈ (update initUSt c9Env1).2 ∧
    Ev.stty 1200 ∈ (update initUSt c9Env1).2 ∧
    (update initUSt c9Env1).1.need_confirm = false ∧
    (update (detectDevice (update initUSt c9Env1).1 true) c9Env2).2.filter
      isConfirmEv = [] ∧
    Ev.flashTool ∈ (update (detectDevice (update initUSt c9Env1).1 true) c9Env2).2 :=
  consent_remembered_across_runs initUSt c9Env1 c9Env2 ⟨2020, 1, 1⟩
    rfl rfl (by decide) (by decide) rfl rfl

/-- Claim C10: when the user declines the confirmation prompt,
`download_to_board` returns with the state it was given — in particular
`need_confirm` keeps its prior value — and its whole trace is the single
confirmation prompt: no mode-switch command, no flashing tool, no
enable/disable signal. -/
theorem decline_no_effect (s : USt) (env : DtbEnv) (nv : Dt) (nu hsf : Bool)
    (h1 : s.need_confirm = true) (h2 : env.confirm_answer = false) :
    download_to_board s env nv nu hsf = (s, [Ev.confirmPrompt (hintOf s hsf)]) := by
  simp [download_to_board, h1, h2]

theorem decline_no_effect_witness :
    download_to_board initUSt ⟨false, false⟩ ⟨2021, 6, 1⟩ true false =
      (initUSt, [Ev.confirmPrompt hint_no_firmware]) := by
  have h := decline_no_effect initUSt ⟨false, false⟩ ⟨2021, 6, 1⟩ true false rfl rfl
  simpa [hintOf, initUSt] using h

end Seeed
